import Mathlib

/-!
# Verification of the rds-mcp slow-query / instance-resolution pipeline

Shallow embedding of `src/rds_mcp/server.py` and `src/rds_mcp/client.py`.
Python strings are modelled as `List Char`; Python floats produced by
`float(...)` on decimal literals are modelled as `ℚ` (the operations used on
them — comparison and sorting — agree with IEEE semantics on the decimal
values appearing in the claims); raised Python exceptions are modelled with
`Except (List Char)` where the payload is the exception message.
-/

namespace RdsMcp

instance {ε α : Type _} [DecidableEq ε] [DecidableEq α] : DecidableEq (Except ε α) := fun a b =>
  match a, b with
  | .error e1, .error e2 => decidable_of_iff (e1 = e2) (by simp)
  | .ok a1, .ok a2 => decidable_of_iff (a1 = a2) (by simp)
  | .error _, .ok _ => isFalse (by simp)
  | .ok _, .error _ => isFalse (by simp)

/-! ## Python string primitives (on `List Char`) -/

/-- Characters stripped by Python's `str.strip()` (ASCII whitespace). -/
def isSpaceCh (c : Char) : Bool :=
  c = ' ' || c = '\t' || c = '\n' || c = '\x0d' || c = '\x0b' || c = '\x0c'

def isDigitCh (c : Char) : Bool := '0' ≤ c && c ≤ '9'

/-- Regex `\w` on ASCII input: letters, digits, underscore. -/
def isWordCh (c : Char) : Bool :=
  ('a' ≤ c && c ≤ 'z') || ('A' ≤ c && c ≤ 'Z') || isDigitCh c || c = '_'

/-- Python `str.lower()` restricted to ASCII. -/
def pyLowerCh (c : Char) : Char :=
  if 'A' ≤ c && c ≤ 'Z' then Char.ofNat (c.toNat + 32) else c

/-- Python `str.upper()` restricted to ASCII. -/
def pyUpperCh (c : Char) : Char :=
  if 'a' ≤ c && c ≤ 'z' then Char.ofNat (c.toNat - 32) else c

def pyLower (s : List Char) : List Char := s.map pyLowerCh

def pyUpper (s : List Char) : List Char := s.map pyUpperCh

/-- Python `str.strip()`. -/
def pyStrip (s : List Char) : List Char :=
  ((s.dropWhile isSpaceCh).reverse.dropWhile isSpaceCh).reverse

/-- Python `s.startswith(p)`. -/
def pyStartsWith (p s : List Char) : Bool := List.isPrefixOf p s

/-- Index of the first occurrence of `sub` in `s` (Python `s.find(sub)`),
`none` when absent.  `sub` is nonempty at every use site. -/
def findSub (sub : List Char) : List Char → Option Nat
  | [] => if sub = [] then some 0 else none
  | c :: rest =>
    if List.isPrefixOf sub (c :: rest) then some 0
    else (findSub sub rest).map (· + 1)

/-- Python `sub in s`. -/
def pySubstr (sub s : List Char) : Bool := (findSub sub s).isSome

/-- Worker for `pySplitAll`; `fuel` is an upper bound on the remaining input
length, each step consumes at least one character (the separators used are
all nonempty). -/
def pySplitAllGo (sep : List Char) : Nat → List Char → List Char → List (List Char)
  | 0, s, acc => [acc.reverse ++ s]
  | _ + 1, [], acc => [acc.reverse]
  | fuel + 1, c :: rest, acc =>
    if List.isPrefixOf sep (c :: rest) then
      acc.reverse :: pySplitAllGo sep fuel (List.drop sep.length (c :: rest)) []
    else
      pySplitAllGo sep fuel rest (c :: acc)

/-- Python `s.split(sep)` (all occurrences, left to right, non-overlapping). -/
def pySplitAll (sep s : List Char) : List (List Char) :=
  pySplitAllGo sep (s.length + 1) s []

/-- Python `s.split(sep, 1)`. -/
def pySplitOnce (sep s : List Char) : List (List Char) :=
  match findSub sep s with
  | none => [s]
  | some i => [s.take i, s.drop (i + sep.length)]

/-- Worker for `pyReplace` with the same fuel discipline as `pySplitAllGo`. -/
def pyReplaceGo (old new : List Char) : Nat → List Char → List Char
  | 0, s => s
  | _ + 1, [] => []
  | fuel + 1, c :: rest =>
    if List.isPrefixOf old (c :: rest) then
      new ++ pyReplaceGo old new fuel (List.drop old.length (c :: rest))
    else
      c :: pyReplaceGo old new fuel rest

/-- Python `s.replace(old, new)` (all non-overlapping occurrences). -/
def pyReplace (old new s : List Char) : List Char :=
  pyReplaceGo old new (s.length + 1) s

/-- Python `sep.join(parts)`. -/
def pyJoin (sep : List Char) : List (List Char) → List Char
  | [] => []
  | [p] => p
  | p :: q :: rest => p ++ sep ++ pyJoin sep (q :: rest)

/-- Python `''.join(parts)`. -/
def pyJoinEmpty (parts : List (List Char)) : List Char := parts.flatten

/-- Python string `<` (lexicographic on code points). -/
def pyStrLt : List Char → List Char → Bool
  | [], [] => false
  | [], _ :: _ => true
  | _ :: _, [] => false
  | a :: as, b :: bs =>
    if a.toNat < b.toNat then true
    else if b.toNat < a.toNat then false
    else pyStrLt as bs

/-- Python string `<=`. -/
def pyStrLe (a b : List Char) : Bool := !(pyStrLt b a)

/-- Value of a digit string (helper for `parseDec`). -/
def digitsVal (s : List Char) : Nat :=
  s.foldl (fun acc c => acc * 10 + (c.toNat - '0'.toNat)) 0

/-- Exact value of a Python `float(...)` applied to a decimal literal of shape
`\d+\.?\d*` (the only shapes the slow-query pipeline feeds to `float`): the
number `num / 10 ^ scale`.  Comparisons on these exact values agree with the
IEEE comparisons Python performs, because decimal-to-double conversion is
monotone and the concrete values in the claims are distinguished decimals. -/
structure Dec where
  num : Nat
  scale : Nat
deriving DecidableEq, Repr

/-- The rational number a `Dec` denotes. -/
def Dec.toQ (d : Dec) : ℚ := (d.num : ℚ) / (10 : ℚ) ^ d.scale

/-- Numeric `≤` on `Dec` (kernel-computable; agrees with `toQ`-order,
see `Dec.ble_iff`). -/
def Dec.ble (a b : Dec) : Bool := decide (a.num * 10 ^ b.scale ≤ b.num * 10 ^ a.scale)

/-- Python truthiness of the float: `0.0` is falsy, everything else truthy. -/
def Dec.truthy (d : Dec) : Bool := decide (d.num ≠ 0)

theorem Dec.ble_iff (a b : Dec) : Dec.ble a b = true ↔ a.toQ ≤ b.toQ := by
  unfold Dec.ble Dec.toQ
  rw [decide_eq_true_iff]
  rw [div_le_div_iff₀ (by positivity) (by positivity)]
  constructor
  · intro h
    exact_mod_cast h
  · intro h
    exact_mod_cast h

theorem Dec.toQ_eq_zero_iff (d : Dec) : d.toQ = 0 ↔ d.num = 0 := by
  unfold Dec.toQ
  rw [div_eq_zero_iff]
  constructor
  · intro h
    rcases h with h | h
    · exact_mod_cast h
    · exact absurd h (by positivity)
  · intro h
    exact Or.inl (by exact_mod_cast h)

/-- Python `float(v)` on strings of shape `\d+\.?\d*`. -/
def parseDec (s : List Char) : Dec :=
  match pySplitOnce ['.'] s with
  | [intPart, fracPart] => ⟨digitsVal intPart * 10 ^ fracPart.length + digitsVal fracPart, fracPart.length⟩
  | _ => ⟨digitsVal s, 0⟩

/-- Python `int(v)`: succeeds only on pure digit strings, otherwise raises
`ValueError` (e.g. `int("10.5")`). -/
def parseIntPy (s : List Char) : Except (List Char) Int :=
  if s ≠ [] && s.all isDigitCh then .ok (digitsVal s : Int)
  else .error ("invalid literal for int: ".toList ++ s)

end RdsMcp

namespace RdsMcp

/-! quick sanity examples for the primitives (kept as anonymous examples) -/

example : pySplitAll (",".toList) "1,2,3".toList = ["1".toList, "2".toList, "3".toList] := by decide

example : pySplitOnce (")".toList) "a)b)c".toList = ["a".toList, ")b)c".toList.drop 1] := by decide

example : pyStrip ("  ab ".toList) = "ab".toList := by decide

example : pyReplace ("# ".toList) [] "# Query_time: 1".toList = "Query_time: 1".toList := by decide

example : parseDec ("10.5".toList) = ⟨105, 1⟩ := by decide

example : (parseDec ("10.5".toList)).toQ = 21 / 2 := by
  rw [show parseDec ("10.5".toList) = ⟨105, 1⟩ by decide]
  norm_num [Dec.toQ]

example : pyStrLt ("20".toList) "5".toList = true := by decide

example : pyStrLt ("5".toList) "50".toList = true := by decide

end RdsMcp

namespace RdsMcp

/-! ## Slow-query metric line scanner

Model of `re.findall(r'(\w+): (\d+\.?\d*|\d+)', line.replace('# ', ''))` in
`server.py` (lines 216-219).  Because `\w` matches neither `:` nor a space,
the regex engine's leftmost-match scan is equivalent to: find each maximal
word-character run that is immediately followed by `": "` and then a number
of shape `\d+\.?\d*`; non-overlapping, continuing after each match. -/

/-- Greedy capture of `\d+\.?\d*` at the head of `s`:
returns the captured text and the remainder, or `none` when `s` does not
start with a digit. -/
def takeNumber (s : List Char) : Option (List Char × List Char) :=
  let d1 := s.takeWhile isDigitCh
  if d1 = [] then none
  else
    let r1 := s.dropWhile isDigitCh
    match r1 with
    | '.' :: r =>
      some (d1 ++ '.' :: r.takeWhile isDigitCh, r.dropWhile isDigitCh)
    | _ => some (d1, r1)

/-- Scanner worker; fuel bounds the input length (each step consumes at
least one character). -/
def scanMetricsGo : Nat → List Char → List (List Char × List Char)
  | 0, _ => []
  | _ + 1, [] => []
  | fuel + 1, c :: rest =>
    if isWordCh c then
      let run := List.takeWhile isWordCh (c :: rest)
      let after := List.dropWhile isWordCh (c :: rest)
      match after with
      | ':' :: ' ' :: r2 =>
        match takeNumber r2 with
        | some (numTxt, r3) => (run, numTxt) :: scanMetricsGo fuel r3
        | none => scanMetricsGo fuel after
      | _ => scanMetricsGo fuel after
    else
      scanMetricsGo fuel rest

/-- All `(name, value)` pairs the metric regex finds in `line`. -/
def scanMetrics (line : List Char) : List (List Char × List Char) :=
  scanMetricsGo (line.length + 1) line

/-! ## Query normalizer (server.py lines 177-190 mysql, 303-312 postgres)

Both variants detect an `IN (` clause case-insensitively
(`"IN (" in sql.upper()`) but then split the ORIGINAL string on the
case-sensitive literal `"IN ("`; when the casing differs the split yields a
single part and the Python code raises `IndexError` at `parts[1]`. -/

def indexErrorMsg : List Char := "list index out of range".toList

/-- The collapsed value list `first3, ... last2` (Python
`f"{','.join(values[:3])}, ... {','.join(values[-2:])}"`). -/
def collapseValues (values : List (List Char)) : List Char :=
  pyJoin (",".toList) (values.take 3) ++ ", ... ".toList ++
    pyJoin (",".toList) (values.drop (values.length - 2))

/-- The mysql-variant `IN (` collapse (server.py lines 177-186); the trailer
`in_clause[1]` is guarded by `len(in_clause) > 1` in this variant. -/
def collapseInMysql (sql : List Char) : Except (List Char) (List Char) :=
  if pySubstr ("IN (".toList) (pyUpper sql) then
    match pySplitAll ("IN (".toList) sql with
    | p0 :: p1 :: _ =>
      let beforeIn := p0 ++ "IN (".toList
      let inClause := pySplitOnce (")".toList) p1
      let values := pySplitAll (",".toList) (inClause.headD [])
      if 5 < values.length then
        .ok (beforeIn ++ collapseValues values ++ ")".toList ++
          (if 1 < inClause.length then inClause.getD 1 [] else []))
      else .ok sql
    | _ => .error indexErrorMsg
  else .ok sql

/-- The postgres-variant `IN (` collapse (server.py lines 303-310 and
330-337); here `in_clause[1]` is accessed unguarded inside the
`len(values) > 5` branch. -/
def collapseInPg (sql : List Char) : Except (List Char) (List Char) :=
  if pySubstr ("IN (".toList) (pyUpper sql) then
    match pySplitAll ("IN (".toList) sql with
    | p0 :: p1 :: _ =>
      let beforeIn := p0 ++ "IN (".toList
      let inClause := pySplitOnce (")".toList) p1
      let values := pySplitAll (",".toList) (inClause.headD [])
      if 5 < values.length then
        match inClause with
        | _ :: t1 :: _ => .ok (beforeIn ++ collapseValues values ++ ")".toList ++ t1)
        | _ => .error indexErrorMsg
      else .ok sql
    | _ => .error indexErrorMsg
  else .ok sql

/-- Length truncation applied after the `IN (` collapse in both variants
(server.py lines 189-190 and 311-312). -/
def truncate1500 (s : List Char) : List Char :=
  if 1500 < s.length then s.take 1500 ++ "... [truncated]".toList else s

def mysqlNormalizeSql (sql : List Char) : Except (List Char) (List Char) := do
  let s ← collapseInMysql sql
  pure (truncate1500 s)

def pgNormalizeSql (sql : List Char) : Except (List Char) (List Char) := do
  let s ← collapseInPg sql
  pure (truncate1500 s)

example :
    scanMetrics ("Query_time: 10.5  Lock_time: 0.1 Rows_sent: 100".toList) =
      [("Query_time".toList, "10.5".toList), ("Lock_time".toList, "0.1".toList),
       ("Rows_sent".toList, "100".toList)] := by decide

example :
    collapseInMysql ("SELECT a FROM t WHERE x IN (1,2,3,4,5,6,7)".toList) =
      .ok ("SELECT a FROM t WHERE x IN (1,2,3, ... 6,7)".toList) := by decide

example :
    collapseInMysql ("select a from t where x in (1,2,3,4,5,6,7)".toList) =
      .error indexErrorMsg := by decide

end RdsMcp

namespace RdsMcp

/-! ## Row-oriented (MySQL) slow-query parser (server.py lines 166-251)

One normalized record per finished `# Time:` block.  The Python
`current_entry` starts as the empty dict `{}` and is reset to a dict with all
values `None`; both are modelled by `MyEntry` with all fields `none`
(`dict.get` returns `None` for a missing key, and no claim distinguishes a
missing key from an explicit `None`). -/

structure MyEntry where
  timestamp : Option (List Char)
  query_time : Option Dec
  lock_time : Option Dec
  rows_sent : Option Int
  rows_examined : Option Int
  sql : Option (List Char)
deriving DecidableEq, Repr

def emptyEntry : MyEntry := ⟨none, none, none, none, none, none⟩

structure MyState where
  current : MyEntry
  captureSql : Bool
  sqlLines : List (List Char)
  entries : List MyEntry
deriving DecidableEq, Repr

def initMyState : MyState := ⟨emptyEntry, false, [], []⟩

/-- Truthiness of `current_entry.get('query_time')`: `None` and `0.0` are
falsy, any other parsed float is truthy. -/
def qtTruthy : Option Dec → Bool
  | none => false
  | some d => d.truthy

/-- Shape check for `datetime.strptime(ts, '%Y-%m-%dT%H:%M:%S.%fZ')`
(4-2-2 date, `T`, 2:2:2 time, 1-6 fractional digits, literal `Z`); the
calendar-range validation `strptime` also performs is not modelled — no
claim depends on the timestamp field. -/
def matchesMyTs : List Char → Bool
  | y1 :: y2 :: y3 :: y4 :: '-' :: m1 :: m2 :: '-' :: d1 :: d2 :: 'T' ::
      h1 :: h2 :: ':' :: n1 :: n2 :: ':' :: s1 :: s2 :: '.' :: rest =>
    [y1, y2, y3, y4, m1, m2, d1, d2, h1, h2, n1, n2, s1, s2].all isDigitCh &&
      (let ds := rest.takeWhile isDigitCh
       let rs := rest.dropWhile isDigitCh
       decide (1 ≤ ds.length ∧ ds.length ≤ 6) && rs = ['Z'])
  | _ => false

/-- One `metric, value` assignment from the regex result loop
(server.py lines 220-228); `int(...)` can raise `ValueError`. -/
def applyMetric (e : MyEntry) (mv : List Char × List Char) : Except (List Char) MyEntry :=
  if mv.1 = "Query_time".toList then .ok { e with query_time := some (parseDec mv.2) }
  else if mv.1 = "Lock_time".toList then .ok { e with lock_time := some (parseDec mv.2) }
  else if mv.1 = "Rows_sent".toList then do
    let n ← parseIntPy mv.2
    pure { e with rows_sent := some n }
  else if mv.1 = "Rows_examined".toList then do
    let n ← parseIntPy mv.2
    pure { e with rows_examined := some n }
  else .ok e

/-- Finalization of the in-progress record performed at a `# Time:` marker
when `current_entry.get('query_time')` is truthy and `sql_lines` is
nonempty (server.py lines 174-192). -/
def finalizeCurrent (st : MyState) : Except (List Char) MyState :=
  match mysqlNormalizeSql (pyStrip (pyJoin (" ".toList) st.sqlLines)) with
  | .error e => .error e
  | .ok sql => .ok { st with entries := st.entries ++ [{ st.current with sql := some sql }] }

/-- One iteration of the `for line in ''.join(log_data).split('\n')` loop
(server.py lines 170-251), translated branch by branch — including the
unreachable `SET timestamp=` / `use ` branches that are shadowed by the
`elif not line.startswith('#') and line` branch above them. -/
def mysqlStep (st : MyState) (rawLine : List Char) : Except (List Char) MyState :=
  let line := pyStrip rawLine
  if pyStartsWith ("# Time:".toList) line then
    match (if qtTruthy st.current.query_time && !(st.sqlLines = []) then
            finalizeCurrent st
           else .ok st) with
    | .error e => .error e
    | .ok st1 =>
      let tsStr := pyStrip (pyReplace ("# Time: ".toList) [] line)
      let ts : Option (List Char) := if matchesMyTs tsStr then some tsStr else none
      .ok { st1 with
        current := { emptyEntry with timestamp := ts },
        sqlLines := [], captureSql := false }
  else if pyStartsWith ("# Query_time:".toList) line then
    match (scanMetrics (pyReplace ("# ".toList) [] line)).foldlM applyMetric st.current with
    | .error e => .error e
    | .ok cur => .ok { st with current := cur }
  else if !(pyStartsWith ("#".toList) line) && !(line = []) then
    if pyStartsWith ("select".toList) (pyLower line) then
      .ok { st with captureSql := true, sqlLines := st.sqlLines ++ [line] }
    else if st.captureSql then
      .ok { st with sqlLines := st.sqlLines ++ [line] }
    else .ok st
  else if pyStartsWith ("SET timestamp=".toList) line then
    .ok st
  else if pyStartsWith ("use ".toList) line then
    .ok st
  else if !(line = []) && !(pyStartsWith ("#".toList) line) then
    if !st.captureSql && !(pyStartsWith ("select".toList) (pyLower line)) then .ok st
    else .ok { st with captureSql := true, sqlLines := st.sqlLines ++ [line] }
  else if st.captureSql && line = [] then
    .ok { st with captureSql := false }
  else .ok st

def mysqlRun : List (List Char) → MyState → Except (List Char) MyState
  | [], st => .ok st
  | l :: ls, st =>
    match mysqlStep st l with
    | .error e => .error e
    | .ok st' => mysqlRun ls st'

/-- The whole mysql branch parse: split the concatenated log text on
newlines and run the state machine; the in-progress record left at
end-of-input is dropped (`entries` is all that is read afterwards). -/
def mysqlParse (text : List Char) : Except (List Char) (List MyEntry) :=
  match mysqlRun (pySplitAll ("\n".toList) text) initMyState with
  | .error e => .error e
  | .ok st => .ok st.entries

end RdsMcp

namespace RdsMcp

/-! ## Block-oriented (Postgres) slow-query parser (server.py lines 253-346) -/

structure PgEntry where
  query_time : List Char
  sql : List Char
deriving DecidableEq, Repr

/-- Prefix check for `re.compile(r'^\d{4}-\d{2}-\d{2} \d{2}:\d{2}:\d{2} UTC:')`
used with `.match` (anchored at the start of the stripped line). -/
def pgTsMatch : List Char → Bool
  | y1 :: y2 :: y3 :: y4 :: '-' :: m1 :: m2 :: '-' :: d1 :: d2 :: ' ' ::
      h1 :: h2 :: ':' :: n1 :: n2 :: ':' :: s1 :: s2 :: ' ' :: 'U' :: 'T' :: 'C' :: ':' :: _ =>
    [y1, y2, y3, y4, m1, m2, d1, d2, h1, h2, n1, n2, s1, s2].all isDigitCh
  | _ => false

/-- Attempt of `LOG:  duration: (\d+\.?\d*) ms  statement: (.*)` (DOTALL)
anchored at the head of `s`: literal prefix, greedy number, literal
separator, rest captured greedily.  Backtracking inside the number cannot
produce a match this greedy scan misses, because a shorter number capture
would have to be followed by `" ms"` starting with a digit or `.`. -/
def pgMatchAt (s : List Char) : Option (List Char × List Char) := do
  let r1 ←
    (if List.isPrefixOf ("LOG:  duration: ".toList) s then
      some (s.drop ("LOG:  duration: ".toList).length) else none)
  let (num, r2) ← takeNumber r1
  let r3 ←
    (if List.isPrefixOf (" ms  statement: ".toList) r2 then
      some (r2.drop (" ms  statement: ".toList).length) else none)
  some (num, r3)

/-- `re.search`: leftmost position where `pgMatchAt` succeeds. -/
def pgSearchGo : Nat → List Char → Option (List Char × List Char)
  | 0, _ => none
  | _ + 1, [] => none
  | fuel + 1, c :: rest =>
    match pgMatchAt (c :: rest) with
    | some r => some r
    | none => pgSearchGo fuel rest

def pgSearch (s : List Char) : Option (List Char × List Char) :=
  pgSearchGo (s.length + 1) s

/-- Processing of one completed block (`'\n'.join(buffer)`): non-matching
blocks are silently discarded; matching ones are normalized and appended
(server.py lines 298-319 and 325-346). -/
def pgProcessBlock (entries : List PgEntry) (blockText : List Char) :
    Except (List Char) (List PgEntry) :=
  match pgSearch blockText with
  | none => .ok entries
  | some (dur, sql0) => do
    let sql ← pgNormalizeSql sql0
    pure (entries ++ [⟨dur, sql⟩])

/-- The `for line in full_log.split('\n')` grouping loop: a timestamp-prefixed
line finishes the current block and starts a new one; other lines are
appended only when a block is open (lines before the first timestamp are
discarded). -/
def pgRun : List (List Char) → List (List Char) → List PgEntry →
    Except (List Char) (List (List Char) × List PgEntry)
  | [], buffer, entries => .ok (buffer, entries)
  | l :: ls, buffer, entries =>
    let line := pyStrip l
    if pgTsMatch line then
      if !(buffer = []) then do
        let entries' ← pgProcessBlock entries (pyJoin ("\n".toList) buffer)
        pgRun ls [line] entries'
      else pgRun ls [line] entries
    else
      if !(buffer = []) then pgRun ls (buffer ++ [line]) entries
      else pgRun ls buffer entries

/-- Parse of one postgres log file's full text, appending to the records
accumulated from earlier files; the trailing unterminated block IS flushed
in this variant (server.py lines 324-346). -/
def pgParseFile (text : List Char) (entries : List PgEntry) :
    Except (List Char) (List PgEntry) := do
  let (buffer, entries') ← pgRun (pySplitAll ("\n".toList) text) [] entries
  if !(buffer = []) then pgProcessBlock entries' (pyJoin ("\n".toList) buffer)
  else .ok entries'

end RdsMcp

namespace RdsMcp

/-! parser sanity examples -/

set_option maxRecDepth 10000

example :
    mysqlParse ("# Time: 2024-01-01T00:00:00.000000Z\n# Query_time: 10.5  Lock_time: 0.1 Rows_sent: 100  Rows_examined: 1000\nSELECT * FROM users WHERE status = 'active';\n# Time: 2024-01-01T00:00:01.000000Z").toList =
      .ok [{ timestamp := some ("2024-01-01T00:00:00.000000Z".toList),
             query_time := some ⟨105, 1⟩, lock_time := some ⟨1, 1⟩,
             rows_sent := some 100, rows_examined := some 1000,
             sql := some ("SELECT * FROM users WHERE status = 'active';".toList) }] := by decide

example :
    pgParseFile ("2024-01-01 00:00:00 UTC:LOG:  duration: 5 ms  statement: select a\n2024-01-01 00:00:01 UTC:LOG:  duration: 50 ms  statement: select b").toList [] =
      .ok [⟨"5".toList, "select a".toList⟩, ⟨"50".toList, "select b".toList⟩] := by decide

end RdsMcp

namespace RdsMcp

/-! ## Stable sort and the ranking/output stage (server.py lines 351-361)

`list.sort(key=..., reverse=True)` is a stable sort in which an element `a`
originally before `b` stays before `b` exactly when `key(b) <= key(a)`.
Modelled as a stable insertion sort parametrized by the boolean test
`r a b` = "`a`, inserted coming from earlier in the list, may sit before
`b`". -/

def insSorted (r : α → α → Bool) (a : α) : List α → List α
  | [] => [a]
  | b :: l => if r a b then a :: b :: l else b :: insSorted r a l

def pySortBy (r : α → α → Bool) : List α → List α
  | [] => []
  | x :: xs => insSorted r x (pySortBy r xs)

theorem insSorted_perm (r : α → α → Bool) (a : α) (l : List α) :
    (insSorted r a l).Perm (a :: l) := by
  induction l with
  | nil => simp [insSorted]
  | cons b t ih =>
    unfold insSorted
    by_cases h : r a b = true
    · simp [h]
    · simp only [h, if_false]
      exact ((ih.cons b).trans (List.Perm.swap a b t))

theorem pySortBy_perm (r : α → α → Bool) (l : List α) :
    (pySortBy r l).Perm l := by
  induction l with
  | nil => simp [pySortBy]
  | cons x xs ih =>
    exact (insSorted_perm r x (pySortBy r xs)).trans (ih.cons x)

theorem pySortBy_length (r : α → α → Bool) (l : List α) :
    (pySortBy r l).length = l.length :=
  (pySortBy_perm r l).length_eq

/-- Insertion keeps pairwise order when the test is total and transitive. -/
theorem insSorted_pairwise (r : α → α → Bool)
    (htot : ∀ a b, r a b = true ∨ r b a = true)
    (htrans : ∀ a b c, r a b = true → r b c = true → r a c = true)
    (a : α) (l : List α)
    (hl : l.Pairwise (fun x y => r x y = true)) :
    (insSorted r a l).Pairwise (fun x y => r x y = true) := by
  induction l with
  | nil => simp [insSorted]
  | cons b t ih =>
    rcases List.pairwise_cons.mp hl with ⟨hb, ht⟩
    unfold insSorted
    by_cases h : r a b = true
    · rw [if_pos h]
      refine List.pairwise_cons.mpr ⟨?_, hl⟩
      intro y hy
      rcases List.mem_cons.mp hy with rfl | hy
      · exact h
      · exact htrans a b y h (hb y hy)
    · rw [if_neg h]
      refine List.pairwise_cons.mpr ⟨?_, ih ht⟩
      intro y hy
      have hy' := (insSorted_perm r a t).mem_iff.mp hy
      rcases List.mem_cons.mp hy' with rfl | hy''
      · rcases htot y b with h' | h'
        · exact absurd h' h
        · exact h'
      · exact hb y hy''

theorem pySortBy_pairwise (r : α → α → Bool)
    (htot : ∀ a b, r a b = true ∨ r b a = true)
    (htrans : ∀ a b c, r a b = true → r b c = true → r a c = true)
    (l : List α) :
    (pySortBy r l).Pairwise (fun x y => r x y = true) := by
  induction l with
  | nil => simp [pySortBy]
  | cons x xs ih => exact insSorted_pairwise r htot htrans x (pySortBy r xs) ih

/-- The ranking/output stage of `get_database_queries` (server.py lines
351-361): stable sort with `reverse=True` on `x['query_time']`, truncate to
50, report the truncated length as `total_slow_queries` and the first 5 as
`top_5_queries`. -/
def rankEntries (r : α → α → Bool) (entries : List α) : Nat × List α :=
  let sorted := pySortBy r entries
  let truncated := sorted.take 50
  (truncated.length, truncated.take 5)

/-- Sort test for the mysql branch: `a` may precede `b` iff
`key(b) <= key(a)` numerically. -/
def myRankRel (a b : MyEntry) : Bool :=
  Dec.ble (b.query_time.getD ⟨0, 0⟩) (a.query_time.getD ⟨0, 0⟩)

/-- Sort test for the postgres branch: the stored `query_time` values are
STRINGS (the raw regex capture), so Python compares them lexicographically. -/
def pgRankRel (a b : PgEntry) : Bool :=
  pyStrLe b.query_time a.query_time

end RdsMcp

namespace RdsMcp

/-! ## Deterministic fallback matcher (client.py lines 192-212) -/

/-- Ascending-by-length test for `partial_matches.sort(key=len)` (stable). -/
def lenRel (a b : List Char) : Bool := decide (a.length ≤ b.length)

def best_matching_rds_instance (target : List Char) (candidates : List (List Char)) :
    Option (List Char) :=
  if target = [] || candidates = [] then none
  else
    match candidates.find? (fun c => decide (pyLower c = pyLower target)) with
    | some c => some c
    | none =>
      match pySortBy lenRel (candidates.filter (fun c =>
          pySubstr (pyLower target) (pyLower c) || pySubstr (pyLower c) (pyLower target))) with
      | [] => none
      | m :: _ => some m

/-- Head of the stable ascending-by-length sort: inserting an element whose
length is a lower bound for the whole list puts it first. -/
theorem insSorted_len_head (m : List Char) (s : List (List Char))
    (hmin : ∀ x ∈ s, m.length ≤ x.length) :
    (insSorted lenRel m s).head? = some m := by
  cases s with
  | nil => rfl
  | cons b t =>
    have hb : lenRel m b = true := by
      simp only [lenRel, decide_eq_true_eq]
      exact hmin b (List.mem_cons_self b t)
    simp [insSorted, hb]

/-- The first element of minimal length is the head of the stable
ascending-by-length sort (ties broken by original relative order). -/
theorem pySortBy_len_head (pre post : List (List Char)) (m : List Char)
    (hmin : ∀ x ∈ pre ++ m :: post, m.length ≤ x.length)
    (hpre : ∀ x ∈ pre, m.length < x.length) :
    (pySortBy lenRel (pre ++ m :: post)).head? = some m := by
  induction pre with
  | nil =>
    simp only [List.nil_append, pySortBy]
    apply insSorted_len_head
    intro x hx
    have hx' := (pySortBy_perm lenRel post).mem_iff.mp hx
    exact hmin x (List.mem_cons_of_mem m hx')
  | cons p pre' ih =>
    have hmin' : ∀ x ∈ pre' ++ m :: post, m.length ≤ x.length := by
      intro x hx
      exact hmin x (List.mem_cons_of_mem p hx)
    have hpre' : ∀ x ∈ pre', m.length < x.length := by
      intro x hx
      exact hpre x (List.mem_cons_of_mem p hx)
    have hrest := ih hmin' hpre'
    simp only [List.cons_append, pySortBy]
    cases hsort : pySortBy lenRel (pre' ++ m :: post) with
    | nil => rw [hsort] at hrest; simp at hrest
    | cons m' t' =>
      rw [hsort] at hrest
      simp only [List.head?_cons, Option.some.injEq] at hrest
      have hp : lenRel p m = false := by
        simp only [lenRel, decide_eq_false_iff_not, not_le]
        exact hpre p (List.mem_cons_self p pre')
      simp [insSorted, hp, hrest]

end RdsMcp

namespace RdsMcp

/-! ## Instance directory cache (client.py lines 124-151) and name
resolution cache (client.py lines 153-190)

Wall-clock instants are modelled as integer epoch seconds; the code compares
`(current_time - timestamp).total_seconds() < cache_ttl` with
`cache_ttl = 300`. -/

structure DirListing where
  rds_instances : List (List Char)
  total_rds_instances : Nat
deriving DecidableEq, Repr

/-- Result of `get_available_rds_instances`: either the formatted listing
dict or the error dict built in the `except` branch — whose keys are
literally `"error"` and `"status"` (there is no `"message"` key). -/
inductive DirResult where
  | listing (d : DirListing)
  | errorDict (fields : List (List Char × List Char))
deriving DecidableEq, Repr

structure DirCacheState where
  data : Option DirListing
  timestamp : Option Int
deriving DecidableEq, Repr

def dirCacheTtl : Int := 300

/-- The fetch-and-replace path of `get_available_rds_instances`: on success
the snapshot and timestamp are replaced; on failure (`except` branch) the
error dict is returned and the state is left untouched. -/
def dirFetchRefresh (st : DirCacheState) (now : Int)
    (fetch : Except (List Char) (List (List Char))) : DirResult × DirCacheState :=
  match fetch with
  | .ok instances =>
    let d : DirListing := ⟨instances, instances.length⟩
    (.listing d, ⟨some d, some now⟩)
  | .error e =>
    (.errorDict [("error".toList, "Failed to get rds instances: ".toList ++ e),
                 ("status".toList, "error".toList)], st)

/-- `get_available_rds_instances` (client.py lines 124-151); `fetch` is the
outcome of the upstream `describe_db_instances` call, consulted only on a
cache miss. -/
def get_available_rds_instances (st : DirCacheState) (now : Int)
    (fetch : Except (List Char) (List (List Char))) : DirResult × DirCacheState :=
  match st.data, st.timestamp with
  | some d, some t =>
    if now - t < dirCacheTtl then (.listing d, st)
    else dirFetchRefresh st now fetch
  | _, _ => dirFetchRefresh st now fetch

def assocLookup (k : List Char) (d : List (List Char × List Char)) : Option (List Char) :=
  match d.find? (fun kv => kv.1 == k) with
  | some kv => some kv.2
  | none => none

/-- `find_matching_rds_instances` (client.py lines 153-190).  The cache key
is `f"{database_name}"`, i.e. the raw name.  `available` abstracts the
result of the (lazy) `get_available_rds_instances` call, and `llm` abstracts
`llm_call` followed by `json.loads`: `none` = no/unparsable response,
`some none` = JSON field `rds_instance` null/missing, `some (some x)` =
resolved to `x` (memoized).  The returned `Nat` counts the upstream calls
performed (directory call and inference call).  Reading
`available_instances['rds_instances']` on the error dict raises `KeyError`,
which propagates to the caller. -/
def find_matching_rds_instances (cache : List (List Char × List Char))
    (databaseName : List Char) (available : DirResult)
    (llm : Option (Option (List Char))) :
    Except (List Char) (Option (List Char)) × Nat × List (List Char × List Char) :=
  match assocLookup databaseName cache with
  | some v => (.ok (some v), 0, cache)
  | none =>
    match available with
    | .errorDict _ => (.error ("KeyError: rds_instances".toList), 1, cache)
    | .listing _ =>
      match llm with
      | none => (.ok none, 2, cache)
      | some none => (.ok none, 2, cache)
      | some (some inst) => (.ok (some inst), 2, cache ++ [(databaseName, inst)])

end RdsMcp

namespace RdsMcp

/-! ## The tool-surface operations (server.py)

Python values occurring in the tool results are modelled by `PyVal`;
upstream responses are supplied as `Except`-valued oracles where `.error`
stands for a raised exception (its payload the `str(e)` message). -/

inductive PyVal where
  | vs (v : List Char)
  | vq (v : ℚ)
  | vi (v : Int)
  | vnone
  | vdict (fields : List (List Char × PyVal))
  | vlist (elems : List PyVal)

abbrev PyDict := List (List Char × PyVal)

/-- The structured error shape produced at the tool boundary:
`{"status": "error", "message": str(e)}`. -/
def pyErrorDict (msg : List Char) : PyDict :=
  [("status".toList, .vs ("error".toList)), ("message".toList, .vs msg)]

/-- Python `d[k]` on a dict: `KeyError` when missing. -/
def pyDictGet (d : PyDict) (k : List Char) : Except (List Char) PyVal :=
  match d.find? (fun kv => kv.1 == k) with
  | some kv => .ok kv.2
  | none => .error ("KeyError: ".toList ++ k)

/-- Python `v[k]` where `v` must be a dict (`TypeError` otherwise). -/
def pyAsDict : PyVal → Except (List Char) PyDict
  | .vdict f => .ok f
  | _ => .error ("TypeError: value is not a dict".toList)

def pyAsList : PyVal → Except (List Char) (List PyVal)
  | .vlist l => .ok l
  | _ => .error ("TypeError: value is not a list".toList)

/-- Python `l[0]`. -/
def pyIndex0 : List PyVal → Except (List Char) PyVal
  | [] => .error indexErrorMsg
  | x :: _ => .ok x

/-- The body of the `try` block of `get_db_info` (server.py lines 44-52):
name resolution, the early structured-error return, and extraction of
`response['DBInstances'][0]`.  `resolveR` is the outcome of
`find_matching_rds_instances` (it can itself raise), `describeR` that of
`describe_db_instances`. -/
def getDbInfoTryBlock (resolveR : Except (List Char) (Option (List Char)))
    (describeR : List Char → Except (List Char) PyVal) :
    Except (List Char) (Sum PyDict PyVal) := do
  let m ← resolveR
  match m with
  | none => pure (Sum.inl (pyErrorDict ("No matching RDS instance found".toList)))
  | some dbname => do
    let resp ← describeR dbname
    let respD ← pyAsDict resp
    let instListV ← pyDictGet respD ("DBInstances".toList)
    let instList ← pyAsList instListV
    let rdsInfo ← pyIndex0 instList
    pure (Sum.inr rdsInfo)

/-- `get_db_info` (server.py lines 41-62).  The `except` clause converts any
failure of the try block into the structured error dict, but the response
dict at lines 55-62 is built OUTSIDE the try/except: key lookups on
malformed upstream data there raise and escape. -/
def getDbInfo (resolveR : Except (List Char) (Option (List Char)))
    (describeR : List Char → Except (List Char) PyVal) :
    Except (List Char) PyDict :=
  match getDbInfoTryBlock resolveR describeR with
  | .error e => .ok (pyErrorDict e)
  | .ok (Sum.inl early) => .ok early
  | .ok (Sum.inr rdsInfo) => do
    let rd ← pyAsDict rdsInfo
    let status ← pyDictGet rd ("DBInstanceStatus".toList)
    let ident ← pyDictGet rd ("DBInstanceIdentifier".toList)
    let epV ← pyDictGet rd ("Endpoint".toList)
    let ep ← pyAsDict epV
    let addr ← pyDictGet ep ("Address".toList)
    let port ← pyDictGet ep ("Port".toList)
    let dbi ← pyDictGet rd ("DbiResourceId".toList)
    let alloc ← pyDictGet rd ("AllocatedStorage".toList)
    pure [("status".toList, status),
          ("DBInstanceIdentifier".toList, ident),
          ("DBInstanceEndpoint".toList, addr),
          ("DBInstancePort".toList, port),
          ("DbiResourceId".toList, dbi),
          ("AllocatedStorage".toList, alloc)]

/-- The nine metric names fetched by `get_database_metrics`, in order. -/
def metricNames : List (List Char) :=
  ["CPUUtilization".toList, "FreeableMemory".toList, "DatabaseConnections".toList,
   "FreeStorageSpace".toList, "ReadThroughput".toList, "WriteThroughput".toList,
   "ReadLatency".toList, "WriteLatency".toList, "DBLoad".toList]

def lookupMetric (results : List (List Char × PyVal)) (k : List Char) : PyVal :=
  match results.find? (fun kv => kv.1 == k) with
  | some kv => kv.2
  | none => .vnone

/-- Body of the `try` block of `get_database_metrics` (server.py lines
70-130).  `metricR name` abstracts the `get_metric_data` call and the
`response['MetricDataResults'][0]['Values']` extraction for one metric
(an `.error` models any raise there); `values[-1] if values else None`
picks the last sample. -/
def getDatabaseMetricsTryBlock (resolveR : Except (List Char) (Option (List Char)))
    (metricR : List Char → Except (List Char) (List ℚ)) (nowIso : List Char) :
    Except (List Char) PyDict := do
  let m ← resolveR
  match m with
  | none => pure (pyErrorDict ("No matching RDS instance found".toList))
  | some dbname => do
    let results ← metricNames.foldlM
      (fun (acc : List (List Char × PyVal)) mn => do
        let values ← metricR mn
        pure (acc ++ [(mn, match values.getLast? with
                           | some v => PyVal.vq v
                           | none => PyVal.vnone)]))
      []
    pure [("status".toList, .vs ("success".toList)),
          ("database".toList, .vs dbname),
          ("metrics".toList, .vdict
            [("cpu_utilization".toList, lookupMetric results ("CPUUtilization".toList)),
             ("free_memory_bytes".toList, lookupMetric results ("FreeableMemory".toList)),
             ("connections".toList, lookupMetric results ("DatabaseConnections".toList)),
             ("free_storage_bytes".toList, lookupMetric results ("FreeStorageSpace".toList)),
             ("read_throughput".toList, lookupMetric results ("ReadThroughput".toList)),
             ("write_throughput".toList, lookupMetric results ("WriteThroughput".toList)),
             ("read_latency".toList, lookupMetric results ("ReadLatency".toList)),
             ("write_latency".toList, lookupMetric results ("WriteLatency".toList)),
             ("db_load".toList, lookupMetric results ("DBLoad".toList))]),
          ("timestamp".toList, .vs nowIso)]

/-- `get_database_metrics`: the whole body sits inside `try`, so every
failure becomes the structured error dict. -/
def getDatabaseMetrics (resolveR : Except (List Char) (Option (List Char)))
    (metricR : List Char → Except (List Char) (List ℚ)) (nowIso : List Char) :
    Except (List Char) PyDict :=
  match getDatabaseMetricsTryBlock resolveR metricR nowIso with
  | .error e => .ok (pyErrorDict e)
  | .ok d => .ok d

/-- One `describe_db_log_files` record: file name and
`log_file.get('LastWritten', 0)` in epoch milliseconds. -/
structure LogFileInfo where
  name : List Char
  lastWritten : Int
deriving DecidableEq, Repr

def myEntryToPy (e : MyEntry) : PyVal :=
  .vdict [("timestamp".toList, match e.timestamp with | some t => .vs t | none => .vnone),
          ("query_time".toList, match e.query_time with | some d => .vq d.toQ | none => .vnone),
          ("lock_time".toList, match e.lock_time with | some d => .vq d.toQ | none => .vnone),
          ("rows_sent".toList, match e.rows_sent with | some n => .vi n | none => .vnone),
          ("rows_examined".toList, match e.rows_examined with | some n => .vi n | none => .vnone),
          ("sql".toList, match e.sql with | some s => .vs s | none => .vnone)]

/-- Postgres records carry the duration as a STRING (the raw regex capture)
and `None` for the other metric fields (server.py lines 313-319). -/
def pgEntryToPy (e : PgEntry) : PyVal :=
  .vdict [("query_time".toList, .vs e.query_time),
          ("lock_time".toList, .vnone),
          ("rows_sent".toList, .vnone),
          ("rows_examined".toList, .vnone),
          ("sql".toList, .vs e.sql)]

def queriesSuccessDict (dbname : List Char) (periodMinutes : Int)
    (total : Nat) (top5 : List PyVal) : PyDict :=
  [("status".toList, .vs ("success".toList)),
   ("database".toList, .vs dbname),
   ("period_minutes".toList, .vi periodMinutes),
   ("total_slow_queries".toList, .vi (total : Int)),
   ("top_5_queries".toList, .vlist top5)]

/-- Body of the `try` block of `get_database_queries` (server.py lines
138-361).  `engineR` abstracts `describe_db_instances` plus the
`['DBInstances'][0]['Engine']` extraction; `pagesR f` the paginated
`download_db_log_file_portion` loop for log file `f` (the code joins the
pages); `filesR` the paginated `describe_db_log_files` listing with
`LastWritten` defaults applied; `thresholdMs` is
`int(time_threshold.timestamp() * 1000)`. -/
def getDatabaseQueriesTryBlock (resolveR : Except (List Char) (Option (List Char)))
    (engineR : List Char → Except (List Char) (List Char))
    (pagesR : List Char → Except (List Char) (List (List Char)))
    (filesR : Except (List Char) (List LogFileInfo))
    (thresholdMs : Int) (periodMinutes : Int) :
    Except (List Char) PyDict := do
  let m ← resolveR
  match m with
  | none => pure (pyErrorDict ("No matching RDS instance found".toList))
  | some dbname => do
    let engineRaw ← engineR dbname
    let engine := pyLower engineRaw
    if pySubstr ("mysql".toList) engine then do
      let pages ← pagesR ("slowquery/mysql-slowquery.log".toList)
      let entries ← mysqlParse (pyJoinEmpty pages)
      let (total, top5) := rankEntries myRankRel entries
      pure (queriesSuccessDict dbname periodMinutes total (top5.map myEntryToPy))
    else if pySubstr ("postgres".toList) engine then do
      let files ← filesR
      let names := (files.filter (fun f => decide (thresholdMs ≤ f.lastWritten))).map
        (fun f => f.name)
      let entries ← names.foldlM
        (fun acc fn => do
          let pages ← pagesR fn
          pgParseFile (pyJoinEmpty pages) acc)
        []
      let (total, top5) := rankEntries pgRankRel entries
      pure (queriesSuccessDict dbname periodMinutes total (top5.map pgEntryToPy))
    else
      pure [("status".toList, .vs ("error".toList)),
            ("message".toList, .vs ("Unsupported database engine: ".toList ++ engine))]

/-- `get_database_queries`: the whole body sits inside `try`. -/
def getDatabaseQueries (resolveR : Except (List Char) (Option (List Char)))
    (engineR : List Char → Except (List Char) (List Char))
    (pagesR : List Char → Except (List Char) (List (List Char)))
    (filesR : Except (List Char) (List LogFileInfo))
    (thresholdMs : Int) (periodMinutes : Int) :
    Except (List Char) PyDict :=
  match getDatabaseQueriesTryBlock resolveR engineR pagesR filesR thresholdMs periodMinutes with
  | .error e => .ok (pyErrorDict e)
  | .ok d => .ok d

/-- One entry of `response.get("Keys", [])` in `get_top_rds_load`, with the
`item["Dimensions"].get(dim, "Unknown")` and `item.get("Total", 0)`
defaults already applied.  (The `Total is None` path, which would crash the
later sort, is not modelled — no claim depends on it.) -/
structure PiItem where
  dimValue : List Char
  total : ℚ

/-- `round(total, 2)`; Python rounds half to even — the tie behaviour is
irrelevant to every claim. -/
def round2 (q : ℚ) : ℚ := (⌊q * 100 + 1 / 2⌋ : ℚ) / 100

def topLoadGroups : List (List Char × List Char) :=
  [("db.sql".toList, "Top SQL".toList),
   ("db.user".toList, "Top Users".toList),
   ("db.wait_event".toList, "Top Waits".toList)]

/-- `get_top_rds_load` (server.py lines 368-435).  There is NO try/except in
this operation: the `DbiResourceId` lookup on the result of `get_db_info`
and the three `describe_dimension_keys` calls raise straight past the tool
boundary.  (`if not db_info` at line 383 is false for every dict
`get_db_info` can return, since they are all nonempty.) -/
def getTopRdsLoad (resolveR : Except (List Char) (Option (List Char)))
    (describeR : List Char → Except (List Char) PyVal)
    (piR : List Char → Except (List Char) (List PiItem)) :
    Except (List Char) PyDict := do
  let dbInfo ← getDbInfo resolveR describeR
  if dbInfo.isEmpty then
    pure (pyErrorDict ("No matching RDS instance found".toList))
  else do
    let _dbId ← pyDictGet dbInfo ("DbiResourceId".toList)
    topLoadGroups.foldlM
      (fun (acc : PyDict) g => do
        let items ← piR g.1
        let rows := items.map (fun it => (it.dimValue, round2 it.total))
        let sorted := pySortBy (fun a b : List Char × ℚ => decide (b.2 ≤ a.2)) rows
        pure (acc ++ [(g.2, PyVal.vlist (sorted.map (fun r =>
          PyVal.vdict [("label".toList, .vs r.1), ("total".toList, .vq r.2)])))]))
      []

end RdsMcp

namespace RdsMcp

/-! ## General lemmas about the embedded operations -/

/-- When `sep` does not occur in `s`, `s.split(sep)` returns the single
chunk `s` (whatever the fuel). -/
theorem pySplitAllGo_no_occurrence (sep : List Char) :
    ∀ (fuel : Nat) (s acc : List Char), findSub sep s = none →
      pySplitAllGo sep fuel s acc = [acc.reverse ++ s] := by
  intro fuel
  induction fuel with
  | zero => intro s acc _; rfl
  | succ n ih =>
    intro s acc hno
    cases s with
    | nil => simp [pySplitAllGo]
    | cons c rest =>
      unfold findSub at hno
      by_cases hpre : List.isPrefixOf sep (c :: rest) = true
      · simp [hpre] at hno
      · simp only [hpre, Bool.false_eq_true, if_false, Option.map_eq_none'] at hno
        simp only [pySplitAllGo, hpre, Bool.false_eq_true, if_false]
        rw [ih rest (c :: acc) hno]
        simp

theorem pySplitAll_no_occurrence (sep s : List Char) (h : pySubstr sep s = false) :
    pySplitAll sep s = [s] := by
  have hno : findSub sep s = none := by
    unfold pySubstr at h
    exact Option.not_isSome_iff_eq_none.mp (by rw [h]; simp)
  unfold pySplitAll
  rw [pySplitAllGo_no_occurrence sep (s.length + 1) s [] hno]
  simp

/-- `mysqlStep` either leaves `entries` unchanged, or — only on a `# Time:`
line — appends exactly one record whose duration passed the truthiness
guard. -/
theorem mysqlStep_entries (st : MyState) (l : List Char) (st' : MyState)
    (h : mysqlStep st l = .ok st') :
    st'.entries = st.entries ∨
      (pyStartsWith ("# Time:".toList) (pyStrip l) = true ∧
        ∃ e, st'.entries = st.entries ++ [e] ∧ qtTruthy e.query_time = true) := by
  simp only [mysqlStep] at h
  by_cases c1 : pyStartsWith ("# Time:".toList) (pyStrip l) = true
  · rw [if_pos c1] at h
    by_cases c2 : (qtTruthy st.current.query_time && !decide (st.sqlLines = [])) = true
    · rw [if_pos c2] at h
      cases hfc : finalizeCurrent st with
      | error e => rw [hfc] at h; exact Except.noConfusion h
      | ok st1 =>
        rw [hfc] at h
        simp only [Except.ok.injEq] at h
        unfold finalizeCurrent at hfc
        cases hn : mysqlNormalizeSql (pyStrip (pyJoin (" ".toList) st.sqlLines)) with
        | error e => rw [hn] at hfc; exact Except.noConfusion hfc
        | ok sql =>
          rw [hn] at hfc
          simp only [Except.ok.injEq] at hfc
          right
          refine ⟨c1, { st.current with sql := some sql }, ?_, ?_⟩
          · rw [← h, ← hfc]
          · exact ((Bool.and_eq_true _ _).mp c2).1
    · rw [if_neg c2] at h
      simp only [Except.ok.injEq] at h
      left
      rw [← h]
  · rw [if_neg c1] at h
    by_cases c3 : pyStartsWith ("# Query_time:".toList) (pyStrip l) = true
    · rw [if_pos c3] at h
      cases hm : List.foldlM applyMetric st.current (scanMetrics (pyReplace ("# ".toList) [] (pyStrip l))) with
      | error e => rw [hm] at h; exact Except.noConfusion h
      | ok cur =>
        rw [hm] at h
        simp only [Except.ok.injEq] at h
        left; rw [← h]
    · rw [if_neg c3] at h
      by_cases c4 : (!pyStartsWith ("#".toList) (pyStrip l) && !decide (pyStrip l = [])) = true
      · rw [if_pos c4] at h
        by_cases c5 : pyStartsWith ("select".toList) (pyLower (pyStrip l)) = true
        · rw [if_pos c5] at h
          simp only [Except.ok.injEq] at h
          left; rw [← h]
        · rw [if_neg c5] at h
          by_cases c6 : st.captureSql = true
          · rw [if_pos c6] at h
            simp only [Except.ok.injEq] at h
            left; rw [← h]
          · rw [if_neg c6] at h
            simp only [Except.ok.injEq] at h
            left; rw [← h]
      · rw [if_neg c4] at h
        by_cases c7 : pyStartsWith ("SET timestamp=".toList) (pyStrip l) = true
        · rw [if_pos c7] at h
          simp only [Except.ok.injEq] at h
          left; rw [← h]
        · rw [if_neg c7] at h
          by_cases c8 : pyStartsWith ("use ".toList) (pyStrip l) = true
          · rw [if_pos c8] at h
            simp only [Except.ok.injEq] at h
            left; rw [← h]
          · rw [if_neg c8] at h
            by_cases c9 : (!decide (pyStrip l = []) && !pyStartsWith ("#".toList) (pyStrip l)) = true
            · rw [if_pos c9] at h
              by_cases c10 : (!st.captureSql && !pyStartsWith ("select".toList) (pyLower (pyStrip l))) = true
              · rw [if_pos c10] at h
                simp only [Except.ok.injEq] at h
                left; rw [← h]
              · rw [if_neg c10] at h
                simp only [Except.ok.injEq] at h
                left; rw [← h]
            · rw [if_neg c9] at h
              by_cases c11 : (st.captureSql && decide (pyStrip l = [])) = true
              · rw [if_pos c11] at h
                simp only [Except.ok.injEq] at h
                left; rw [← h]
              · rw [if_neg c11] at h
                simp only [Except.ok.injEq] at h
                left; rw [← h]

/-- `mysqlStep` changes `entries` only on lines whose stripped text starts
with `# Time:`. -/
theorem mysqlStep_entries_eq_of_not_time (st : MyState) (l : List Char) (st' : MyState)
    (hnt : pyStartsWith ("# Time:".toList) (pyStrip l) = false)
    (h : mysqlStep st l = .ok st') : st'.entries = st.entries := by
  rcases mysqlStep_entries st l st' h with heq | ⟨c1, _⟩
  · exact heq
  · rw [hnt] at c1
    exact Bool.noConfusion c1

/-- C5 part (a) engine: all records a successful run appends satisfy the
duration-truthiness guard. -/
theorem mysqlRun_good (lines : List (List Char)) :
    ∀ (st st' : MyState), mysqlRun lines st = .ok st' →
      (∀ e ∈ st.entries, qtTruthy e.query_time = true) →
      ∀ e ∈ st'.entries, qtTruthy e.query_time = true := by
  induction lines with
  | nil =>
    intro st st' h hg
    unfold mysqlRun at h
    rw [Except.ok.injEq] at h
    subst h
    exact hg
  | cons l ls ih =>
    intro st st' h hg
    unfold mysqlRun at h
    split at h
    · exact absurd h (by simp)
    · rename_i st1 hstep
      refine ih st1 st' h ?_
      rcases mysqlStep_entries st l st1 hstep with heq | ⟨_, e, heq, hqe⟩
      · rw [heq]; exact hg
      · rw [heq]
        intro x hx
        rcases List.mem_append.mp hx with hx | hx
        · exact hg x hx
        · rw [List.mem_singleton.mp hx]
          exact hqe

end RdsMcp

namespace RdsMcp

set_option maxRecDepth 100000

/-! ## Claim theorems -/

/-- C10: in every successful `get_database_queries` result the reported
`total_slow_queries` equals `min(number of parsed records, 50)` — the record
list is truncated to 50 before counting — and `top_5_queries` is exactly
the first 5 elements of that truncated, sorted list. -/
theorem ranking_total_and_top5 {α : Type _} (r : α → α → Bool) (entries : List α) :
    (rankEntries r entries).1 = min entries.length 50 ∧
    (rankEntries r entries).2 = ((pySortBy r entries).take 50).take 5 := by
  unfold rankEntries
  constructor
  · simp only [List.length_take, pySortBy_length]
    exact Nat.min_comm 50 entries.length
  · rfl

/-- C9 (code bug): a line beginning with `SET timestamp=` IS captured into
the emitted statement text whenever statement capture is active, because the
`elif not line.startswith('#') and line` branch shadows the dead
`elif line.startswith('SET timestamp=')` skip branch: the record emitted for
this log carries `select 1 SET timestamp=5;` as its statement. -/
theorem set_timestamp_line_captured_into_statement :
    mysqlParse ("# Time: 2024-01-01T00:00:00.000000Z\n# Query_time: 10.5  Lock_time: 0.1\nselect 1\nSET timestamp=5;\n# Time: 2024-01-01T00:00:01.000000Z").toList =
      .ok [{ timestamp := some ("2024-01-01T00:00:00.000000Z".toList),
             query_time := some ⟨105, 1⟩, lock_time := some ⟨1, 1⟩,
             rows_sent := none, rows_examined := none,
             sql := some ("select 1 SET timestamp=5;".toList) }] ∧
    pySubstr ("SET timestamp=".toList) "select 1 SET timestamp=5;".toList = true :=
  ⟨by decide, by decide⟩

/-- C4: the row-oriented parser finalizes an in-progress record only when a
`# Time:` marker line is seen (every other line leaves the emitted-record
list unchanged), so the last in-progress record at end-of-input is dropped:
the spec's one-block input followed by a second `# Time:` marker yields
exactly one record with duration 10.5 (the parsed `⟨105, 1⟩`, i.e. 21/2)
and the given statement text, while the same input without the trailing
marker yields no record. -/
theorem mysql_parser_drops_trailing_record :
    (∀ (st : MyState) (l : List Char) (st' : MyState),
        pyStartsWith ("# Time:".toList) (pyStrip l) = false →
        mysqlStep st l = .ok st' → st'.entries = st.entries) ∧
    mysqlParse ("# Time: 2024-01-01T00:00:00.000000Z\n# Query_time: 10.5  Lock_time: 0.1 Rows_sent: 100  Rows_examined: 1000\nSELECT * FROM users WHERE status = 'active';\n# Time: 2024-01-01T00:00:01.000000Z").toList =
      .ok [{ timestamp := some ("2024-01-01T00:00:00.000000Z".toList),
             query_time := some ⟨105, 1⟩, lock_time := some ⟨1, 1⟩,
             rows_sent := some 100, rows_examined := some 1000,
             sql := some ("SELECT * FROM users WHERE status = 'active';".toList) }] ∧
    (Dec.mk 105 1).toQ = 21 / 2 ∧
    mysqlParse ("# Time: 2024-01-01T00:00:00.000000Z\n# Query_time: 10.5  Lock_time: 0.1 Rows_sent: 100  Rows_examined: 1000\nSELECT * FROM users WHERE status = 'active';").toList =
      .ok [] := by
  refine ⟨mysqlStep_entries_eq_of_not_time, by decide, ?_, by decide⟩
  norm_num [Dec.toQ]

theorem mysql_parser_drops_trailing_record_witness :
    ({ current := emptyEntry, captureSql := true,
       sqlLines := ["select 1".toList], entries := [] } : MyState).entries =
      initMyState.entries :=
  mysql_parser_drops_trailing_record.1 initMyState ("select 1".toList)
    { current := emptyEntry, captureSql := true,
      sqlLines := ["select 1".toList], entries := [] }
    (by decide) (by decide)

/-- C5 counterexample: a record whose `Query_time` parses to `0.0` has a
populated duration and accumulated statement lines when the second `# Time:`
marker arrives, yet it is NOT finalized (Python truthiness treats `0.0` as
false), so the parse emits no record. -/
theorem zero_duration_record_not_finalized :
    mysqlParse ("# Time: 2024-01-01T00:00:00.000000Z\n# Query_time: 0.0  Lock_time: 0.1\nselect 1;\n# Time: 2024-01-01T00:00:01.000000Z").toList = .ok [] ∧
    mysqlRun (pySplitAll ("\n".toList)
        ("# Time: 2024-01-01T00:00:00.000000Z\n# Query_time: 0.0  Lock_time: 0.1\nselect 1;").toList)
        initMyState =
      .ok { current := { emptyEntry with
                         timestamp := some ("2024-01-01T00:00:00.000000Z".toList),
                         query_time := some ⟨0, 1⟩, lock_time := some ⟨1, 1⟩ },
            captureSql := true, sqlLines := ["select 1;".toList], entries := [] } :=
  ⟨by decide, by decide⟩

/-- C5 (amended): every emitted record has a populated AND nonzero (truthy)
duration; and on a `# Time:` marker, if the in-progress duration is truthy
and statement lines are nonempty, the record is finalized — joined,
normalized and appended — before a new record starts. -/
theorem emitted_records_have_truthy_duration :
    (∀ (text : List Char) (entries : List MyEntry),
        mysqlParse text = .ok entries →
        ∀ e ∈ entries, qtTruthy e.query_time = true) ∧
    (∀ (st : MyState) (l : List Char) (st' : MyState),
        pyStartsWith ("# Time:".toList) (pyStrip l) = true →
        qtTruthy st.current.query_time = true →
        st.sqlLines ≠ [] →
        mysqlStep st l = .ok st' →
        ∃ sql, st'.entries = st.entries ++ [{ st.current with sql := some sql }]) := by
  constructor
  · intro text entries h e he
    unfold mysqlParse at h
    cases hrun : mysqlRun (pySplitAll ("\n".toList) text) initMyState with
    | error er => rw [hrun] at h; exact Except.noConfusion h
    | ok st =>
      rw [hrun] at h
      simp only [Except.ok.injEq] at h
      refine mysqlRun_good _ initMyState st hrun ?_ e (h ▸ he)
      intro x hx
      exact absurd hx (by simp [initMyState])
  · intro st l st' h1 hq hs h
    simp only [mysqlStep] at h
    rw [if_pos h1] at h
    have c2 : (qtTruthy st.current.query_time && !decide (st.sqlLines = [])) = true := by
      rw [hq]
      simp [hs]
    rw [if_pos c2] at h
    cases hfc : finalizeCurrent st with
    | error e => rw [hfc] at h; exact Except.noConfusion h
    | ok st1 =>
      rw [hfc] at h
      simp only [Except.ok.injEq] at h
      unfold finalizeCurrent at hfc
      cases hn : mysqlNormalizeSql (pyStrip (pyJoin (" ".toList) st.sqlLines)) with
      | error e => rw [hn] at hfc; exact Except.noConfusion hfc
      | ok sql =>
        rw [hn] at hfc
        simp only [Except.ok.injEq] at hfc
        refine ⟨sql, ?_⟩
        rw [← h, ← hfc]

theorem emitted_records_have_truthy_duration_witness :
    ∃ sql,
      ({ current := { emptyEntry with timestamp := none },
         captureSql := false, sqlLines := [],
         entries := [{ { emptyEntry with query_time := some ⟨105, 1⟩ } with
                       sql := some ("select 1".toList) }] } : MyState).entries =
        [] ++ [{ ({ emptyEntry with query_time := some ⟨105, 1⟩ } : MyEntry) with
                 sql := some sql }] :=
  emitted_records_have_truthy_duration.2
    { current := { emptyEntry with query_time := some ⟨105, 1⟩ },
      captureSql := true, sqlLines := ["select 1".toList], entries := [] }
    "# Time:".toList
    { current := { emptyEntry with timestamp := none },
      captureSql := false, sqlLines := [],
      entries := [{ { emptyEntry with query_time := some ⟨105, 1⟩ } with
                    sql := some ("select 1".toList) }] }
    (by decide) (by decide) (by decide) (by decide)

/-- C3 counterexample: the exact-case statement collapses as described, but
the same statement in lower case — although detected by the
case-insensitive check — makes both normalizer variants raise `IndexError`
instead of being "handled the same as uppercase". -/
theorem in_clause_case_mismatch :
    collapseInMysql ("SELECT a FROM t WHERE x IN (1,2,3,4,5,6,7)".toList) =
      .ok ("SELECT a FROM t WHERE x IN (1,2,3, ... 6,7)".toList) ∧
    collapseInMysql ("select a from t where x in (1,2,3,4,5,6,7)".toList) =
      .error indexErrorMsg ∧
    collapseInPg ("select a from t where x in (1,2,3,4,5,6,7)".toList) =
      .error indexErrorMsg :=
  ⟨by decide, by decide, by decide⟩

/-- C3 (amended): for statements containing the exact substring `IN (` the
normalizer splits at the first occurrence, takes the value list up to the
first close-paren and collapses more than 5 values to `first3, ... last2`
(reassembled with prefix, closing paren and trailer, as in the concrete
conjunct); a statement matching only case-insensitively instead raises
`IndexError` in both parser variants. -/
theorem in_clause_collapse_amended :
    (∀ sql : List Char,
        pySubstr ("IN (".toList) (pyUpper sql) = true →
        pySubstr ("IN (".toList) sql = false →
        collapseInMysql sql = .error indexErrorMsg ∧
        collapseInPg sql = .error indexErrorMsg) ∧
    mysqlNormalizeSql ("SELECT a FROM t WHERE x IN (1,2,3,4,5,6,7) ORDER BY a".toList) =
      .ok ("SELECT a FROM t WHERE x IN (1,2,3, ... 6,7) ORDER BY a".toList) ∧
    pgNormalizeSql ("SELECT a FROM t WHERE x IN (1,2,3,4,5,6,7) ORDER BY a".toList) =
      .ok ("SELECT a FROM t WHERE x IN (1,2,3, ... 6,7) ORDER BY a".toList) := by
  refine ⟨?_, by decide, by decide⟩
  intro sql h1 h2
  have hsplit := pySplitAll_no_occurrence ("IN (".toList) sql h2
  constructor
  · unfold collapseInMysql
    rw [if_pos h1, hsplit]
  · unfold collapseInPg
    rw [if_pos h1, hsplit]

theorem in_clause_collapse_amended_witness :
    collapseInMysql ("select a where x in (1,2)".toList) = .error indexErrorMsg ∧
    collapseInPg ("select a where x in (1,2)".toList) = .error indexErrorMsg :=
  in_clause_collapse_amended.1 ("select a where x in (1,2)".toList) (by decide) (by decide)

/-- C6: the deterministic fallback matcher returns the first candidate equal
to the target case-insensitively when one exists; otherwise, among
candidates where either lowered string contains the other, it returns the
shortest (ties broken by original relative order); it returns no-match when
the target or the candidate list is empty or no candidate qualifies — with
the spec's three concrete examples. -/
theorem best_matching_characterization :
    (∀ cs, best_matching_rds_instance [] cs = none) ∧
    (∀ t, best_matching_rds_instance t [] = none) ∧
    (∀ (t : List Char) (pre post : List (List Char)) (c : List Char),
        t ≠ [] →
        pyLower c = pyLower t →
        (∀ x ∈ pre, pyLower x ≠ pyLower t) →
        best_matching_rds_instance t (pre ++ c :: post) = some c) ∧
    (∀ (t : List Char) (cs : List (List Char)),
        t ≠ [] →
        (∀ c ∈ cs, pyLower c ≠ pyLower t) →
        ∀ (pre post : List (List Char)) (m : List Char),
          cs.filter (fun c => pySubstr (pyLower t) (pyLower c) ||
            pySubstr (pyLower c) (pyLower t)) = pre ++ m :: post →
          (∀ x ∈ pre ++ m :: post, m.length ≤ x.length) →
          (∀ x ∈ pre, m.length < x.length) →
          best_matching_rds_instance t cs = some m) ∧
    (∀ (t : List Char) (cs : List (List Char)),
        t ≠ [] →
        (∀ c ∈ cs, pyLower c ≠ pyLower t) →
        cs.filter (fun c => pySubstr (pyLower t) (pyLower c) ||
          pySubstr (pyLower c) (pyLower t)) = [] →
        best_matching_rds_instance t cs = none) ∧
    best_matching_rds_instance ("test-db-1".toList)
      ["test-db-1".toList, "prod-db-1".toList] = some ("test-db-1".toList) ∧
    best_matching_rds_instance ("test".toList)
      ["test-db-1".toList, "prod-db-1".toList] = some ("test-db-1".toList) ∧
    best_matching_rds_instance ("nonexistent".toList)
      ["test-db-1".toList, "prod-db-1".toList] = none := by
  refine ⟨?_, ?_, ?_, ?_, ?_, by decide, by decide, by decide⟩
  · intro cs
    simp [best_matching_rds_instance]
  · intro t
    simp [best_matching_rds_instance]
  · intro t pre post c ht hc hpre
    unfold best_matching_rds_instance
    rw [if_neg (by simp [ht])]
    have hfind : List.find? (fun x => decide (pyLower x = pyLower t)) (pre ++ c :: post) =
        some c := by
      rw [List.find?_append]
      rw [List.find?_eq_none.mpr (by
        intro x hx
        simpa using hpre x hx)]
      rw [List.find?_cons_of_pos _ (by simpa using hc)]
      rfl
    rw [hfind]
  · intro t cs ht hnoex pre post m hfilter hmin hpre
    cases cs with
    | nil =>
      have h0 : pre ++ m :: post = ([] : List (List Char)) := by
        rw [← hfilter]; rfl
      simp at h0
    | cons c0 cs0 =>
      unfold best_matching_rds_instance
      rw [if_neg (by simp [ht])]
      rw [List.find?_eq_none.mpr (by
        intro x hx
        simpa using hnoex x hx)]
      simp only [hfilter]
      have hhead := pySortBy_len_head pre post m hmin hpre
      cases hsort : pySortBy lenRel (pre ++ m :: post) with
      | nil => rw [hsort] at hhead; exact Option.noConfusion hhead
      | cons m' rest =>
        rw [hsort] at hhead
        simp only [List.head?_cons, Option.some.injEq] at hhead
        rw [hhead]
  · intro t cs ht hnoex hfilter
    cases cs with
    | nil => simp [best_matching_rds_instance]
    | cons c0 cs0 =>
      unfold best_matching_rds_instance
      rw [if_neg (by simp [ht])]
      rw [List.find?_eq_none.mpr (by
        intro x hx
        simpa using hnoex x hx)]
      simp only [hfilter]
      rfl

theorem best_matching_characterization_witness :
    best_matching_rds_instance ("db".toList) ["xy".toList] = none :=
  best_matching_characterization.2.2.2.2.1 ("db".toList) ["xy".toList]
    (by decide) (by decide) (by decide)

/-- C7 counterexample: on a fetch failure the error result's keys are
`"error"` and `"status"` — there is no `"message"` key, so the claimed shape
`{status: "error", message}` is wrong (the message sits under `"error"`). -/
theorem directory_cache_error_shape :
    get_available_rds_instances ⟨none, none⟩ 0 (.error ("boom".toList)) =
      (.errorDict [("error".toList, "Failed to get rds instances: boom".toList),
                   ("status".toList, "error".toList)],
       ⟨none, none⟩) ∧
    assocLookup ("message".toList)
      [("error".toList, "Failed to get rds instances: boom".toList),
       ("status".toList, "error".toList)] = none :=
  ⟨by decide, by decide⟩

/-- C7 (amended): the listing returns the cached snapshot whenever
`now - fetched_at < 300` (so a second call within 300s of a successful
fetch returns the identical result, with no dependence on — hence no use
of — a second upstream fetch); otherwise it fetches, replaces the snapshot
and returns it; on upstream failure it returns a structured error dict
whose keys are `"status"` (= `"error"`) and `"error"` (the message), and
leaves any existing cached snapshot and timestamp untouched. -/
theorem directory_cache_amended :
    (∀ (d : DirListing) (t now : Int) (fetch : Except (List Char) (List (List Char))),
        now - t < dirCacheTtl →
        get_available_rds_instances ⟨some d, some t⟩ now fetch =
          (.listing d, ⟨some d, some t⟩)) ∧
    (∀ (xs : List (List Char)) (now1 now2 : Int)
        (fetch2 : Except (List Char) (List (List Char))),
        now2 - now1 < dirCacheTtl →
        get_available_rds_instances
            (get_available_rds_instances ⟨none, none⟩ now1 (.ok xs)).2 now2 fetch2 =
          get_available_rds_instances ⟨none, none⟩ now1 (.ok xs)) ∧
    (∀ (st : DirCacheState) (now : Int) (e : List Char),
        (get_available_rds_instances st now (.error e)).2 = st) ∧
    (∀ (now : Int) (e : List Char),
        get_available_rds_instances ⟨none, none⟩ now (.error e) =
          (.errorDict [("error".toList, "Failed to get rds instances: ".toList ++ e),
                       ("status".toList, "error".toList)],
           ⟨none, none⟩)) := by
  refine ⟨?_, ?_, ?_, ?_⟩
  · intro d t now fetch h
    simp [get_available_rds_instances, h]
  · intro xs now1 now2 fetch2 h
    simp [get_available_rds_instances, dirFetchRefresh, h]
  · intro st now e
    obtain ⟨d, t⟩ := st
    cases d with
    | none => cases t <;> rfl
    | some dd =>
      cases t with
      | none => rfl
      | some tt =>
        by_cases h : now - tt < dirCacheTtl
        · simp [get_available_rds_instances, h]
        · simp [get_available_rds_instances, h, dirFetchRefresh]
  · intro now e
    rfl

theorem directory_cache_amended_witness :
    get_available_rds_instances ⟨some ⟨[], 0⟩, some 0⟩ 1 (.error []) =
      (.listing ⟨[], 0⟩, ⟨some ⟨[], 0⟩, some 0⟩) :=
  directory_cache_amended.1 ⟨[], 0⟩ 0 1 (.error []) (by decide)

/-- C8: when the raw database name is already a key of the name-resolution
cache, resolution returns the cached identifier with zero upstream calls
(no directory fetch, no inference call) and an unchanged cache. -/
theorem resolution_cache_hit_zero_calls :
    ∀ (cache : List (List Char × List Char)) (name v : List Char)
      (available : DirResult) (llm : Option (Option (List Char))),
      assocLookup name cache = some v →
      find_matching_rds_instances cache name available llm = (.ok (some v), 0, cache) := by
  intro cache name v avail llm h
  unfold find_matching_rds_instances
  rw [h]

theorem resolution_cache_hit_zero_calls_witness :
    find_matching_rds_instances [("mydb".toList, "mydb-prod-1".toList)] "mydb".toList
        (.errorDict []) none =
      (.ok (some ("mydb-prod-1".toList)), 0, [("mydb".toList, "mydb-prod-1".toList)]) :=
  resolution_cache_hit_zero_calls [("mydb".toList, "mydb-prod-1".toList)] "mydb".toList
    "mydb-prod-1".toList (.errorDict []) none (by decide)

/-- C2 counterexample: the postgres parser stores durations as strings, so
the ranking stage compares them lexicographically: records parsed with
durations `[5, 50, 1, 20]` are emitted in the order `[50, 5, 20, 1]`, not
the claimed numeric order `[50, 20, 5, 1]`. -/
theorem pg_ranking_lexicographic :
    pgParseFile ("2024-01-01 00:00:00 UTC:LOG:  duration: 5 ms  statement: select a\n2024-01-01 00:00:01 UTC:LOG:  duration: 50 ms  statement: select b\n2024-01-01 00:00:02 UTC:LOG:  duration: 1 ms  statement: select c\n2024-01-01 00:00:03 UTC:LOG:  duration: 20 ms  statement: select d").toList [] =
      .ok [⟨"5".toList, "select a".toList⟩, ⟨"50".toList, "select b".toList⟩,
           ⟨"1".toList, "select c".toList⟩, ⟨"20".toList, "select d".toList⟩] ∧
    ((rankEntries pgRankRel
        [⟨"5".toList, "select a".toList⟩, ⟨"50".toList, "select b".toList⟩,
         ⟨"1".toList, "select c".toList⟩, ⟨"20".toList, "select d".toList⟩]).2.map
      (fun e => e.query_time)) =
      ["50".toList, "5".toList, "20".toList, "1".toList] ∧
    ["50".toList, "5".toList, "20".toList, "1".toList] ≠
      ["50".toList, "20".toList, "5".toList, "1".toList] :=
  ⟨by decide, by decide, by decide⟩

theorem myRankRel_total (a b : MyEntry) : myRankRel a b = true ∨ myRankRel b a = true := by
  unfold myRankRel
  rcases le_total ((b.query_time.getD ⟨0, 0⟩).toQ) ((a.query_time.getD ⟨0, 0⟩).toQ) with h | h
  · exact Or.inl ((Dec.ble_iff _ _).mpr h)
  · exact Or.inr ((Dec.ble_iff _ _).mpr h)

theorem myRankRel_trans (a b c : MyEntry)
    (h1 : myRankRel a b = true) (h2 : myRankRel b c = true) : myRankRel a c = true := by
  unfold myRankRel at h1 h2 ⊢
  exact (Dec.ble_iff _ _).mpr (le_trans ((Dec.ble_iff _ _).mp h2) ((Dec.ble_iff _ _).mp h1))

/-- C2 (amended): the ranking stage is a stable sort on `x['query_time']`
descending.  For the mysql variant the keys are parsed floats and the order
is numeric: the output is a permutation of the input, numerically sorted
descending, and records with durations `[5, 50, 1, 20]` come out as
`[50, 20, 5, 1]`.  For the postgres variant the keys are strings and the
order is lexicographic (see the counterexample): the same durations come
out as `[50, 5, 20, 1]`. -/
theorem ranking_by_duration_amended :
    (∀ l : List MyEntry,
        (pySortBy myRankRel l).Pairwise (fun a b =>
          (b.query_time.getD ⟨0, 0⟩).toQ ≤ (a.query_time.getD ⟨0, 0⟩).toQ) ∧
        (pySortBy myRankRel l).Perm l) ∧
    ((rankEntries myRankRel
        [{ emptyEntry with query_time := some ⟨5, 0⟩ },
         { emptyEntry with query_time := some ⟨50, 0⟩ },
         { emptyEntry with query_time := some ⟨1, 0⟩ },
         { emptyEntry with query_time := some ⟨20, 0⟩ }]).2.map
      (fun e => e.query_time)) =
      [some ⟨50, 0⟩, some ⟨20, 0⟩, some ⟨5, 0⟩, some ⟨1, 0⟩] ∧
    (Dec.toQ ⟨50, 0⟩ = 50 ∧ Dec.toQ ⟨20, 0⟩ = 20 ∧
     Dec.toQ ⟨5, 0⟩ = 5 ∧ Dec.toQ ⟨1, 0⟩ = 1) := by
  refine ⟨?_, by decide, by norm_num [Dec.toQ]⟩
  intro l
  constructor
  · exact (pySortBy_pairwise myRankRel myRankRel_total myRankRel_trans l).imp
      (fun h => (Dec.ble_iff _ _).mp h)
  · exact pySortBy_perm myRankRel l

/-- C1 counterexample: `get_top_rds_load` has no try/except; when name
resolution finds no instance, `get_db_info` returns the structured error
dict, the `db_info['DbiResourceId']` lookup raises `KeyError`, and the
exception escapes the tool boundary. -/
theorem get_top_rds_load_exception_escapes :
    getTopRdsLoad (.ok none) (fun _ => .error ("unused".toList))
        (fun _ => .error ("unused".toList)) =
      .error ("KeyError: DbiResourceId".toList) := by
  rfl

/-- C1 (amended): `get_database_metrics` and `get_database_queries` wrap
their whole bodies in try/except, so no exception escapes them (every
outcome is a returned dict); `get_db_info` converts every failure raised
inside its try block (resolution and the describe call) into the structured
error dict — but its response formatting runs outside the try, and
`get_top_rds_load` catches nothing at all (see the counterexample). -/
theorem tool_boundary_error_conversion :
    (∀ (resolveR : Except (List Char) (Option (List Char)))
       (metricR : List Char → Except (List Char) (List ℚ)) (nowIso : List Char),
        ∃ d, getDatabaseMetrics resolveR metricR nowIso = .ok d) ∧
    (∀ (resolveR : Except (List Char) (Option (List Char)))
       (engineR : List Char → Except (List Char) (List Char))
       (pagesR : List Char → Except (List Char) (List (List Char)))
       (filesR : Except (List Char) (List LogFileInfo))
       (thresholdMs periodMinutes : Int),
        ∃ d, getDatabaseQueries resolveR engineR pagesR filesR thresholdMs periodMinutes =
          .ok d) ∧
    (∀ (e : List Char) (describeR : List Char → Except (List Char) PyVal),
        getDbInfo (.error e) describeR = .ok (pyErrorDict e)) := by
  refine ⟨?_, ?_, ?_⟩
  · intro r m n
    unfold getDatabaseMetrics
    cases getDatabaseMetricsTryBlock r m n with
    | error e => exact ⟨_, rfl⟩
    | ok d => exact ⟨_, rfl⟩
  · intro r e p f t pm
    unfold getDatabaseQueries
    cases getDatabaseQueriesTryBlock r e p f t pm with
    | error e => exact ⟨_, rfl⟩
    | ok d => exact ⟨_, rfl⟩
  · intro e d
    rfl

end RdsMcp
